import Mathlib

/-!
Verification development for the gothog music player core.

The Python source is shallowly embedded: pure computations become Lean
functions, stateful methods become explicit state-passing functions, Python
floats (durations, volumes, positions) are modelled as rationals, Python ints
as `Int`/`Nat`, fallible operations return `Option` or a `Bool` success flag,
and the filesystem is threaded through as explicit data (lists of directory
names / file paths).  External capabilities (tag reader, fetcher, clock) are
parameters of the functions that consume them.
-/

set_option maxHeartbeats 1000000

/-! ### Data model (src/core/playlist_manager.py) -/

/-- A single track of a playlist (dataclass `Track`). -/
structure Track where
  filename : String
  title : String
  artist : Option String := none
  album : Option String := none
  duration : ℚ := 0
  track_number : Option Int := none
  year : Option Int := none
  genre : Option String := none
  downloaded_date : Option String := none
  source_id : Option String := none
  file_hash : Option String := none
  play_count : Int := 0
  skip_count : Int := 0
  last_played : Option String := none
deriving DecidableEq

/-- Playlist-specific settings (dataclass `PlaylistSettings`); literal 0.8
becomes the rational 8/10. -/
structure PlaylistSettings where
  shuffle_enabled : Bool := false
  repeat_mode : String := "none"
  volume : ℚ := 8/10
  equalizer_preset : String := "default"
deriving DecidableEq

/-- Information about a playlist's source (dataclass `PlaylistSource`). -/
structure PlaylistSource where
  type : String
  url : Option String := none
  last_sync : Option String := none
deriving DecidableEq

/-- In-memory state of a `Playlist` object (class `Playlist.__init__`);
`path` is the playlist directory name. -/
structure Playlist where
  path : String
  name : String
  description : String := ""
  created_date : String
  modified_date : String
  cover_image : Option String := none
  total_duration : ℚ := 0
  track_count : Int := 0
  source : PlaylistSource := { type := "manual" }
  settings : PlaylistSettings := {}
  tracks : List Track := []
  tags : List String := []
deriving DecidableEq

/-- A fresh `Playlist(path)` whose directory holds no manifest yet: every
field takes its `__init__` default; `datetime.now()` is the `now` argument. -/
def Playlist.init (path : String) (now : String) : Playlist :=
  { path := path, name := path, created_date := now, modified_date := now }

/-! ### Serialized dictionaries

JSON objects are modelled as structures whose fields are all `Option`:
`none` stands for an absent key (or a JSON `null`, which the loading code
treats identically through `dict.get`). -/

/-- Serialized form of a `Track` (output of `Track.to_dict`, input of
`Track.from_dict`). -/
structure TrackDict where
  filename : Option String := none
  title : Option String := none
  artist : Option String := none
  album : Option String := none
  duration : Option ℚ := none
  track_number : Option Int := none
  year : Option Int := none
  genre : Option String := none
  downloaded_date : Option String := none
  source_id : Option String := none
  file_hash : Option String := none
  play_count : Option Int := none
  skip_count : Option Int := none
  last_played : Option String := none
deriving DecidableEq

/-- `Track.to_dict`: `asdict` filtered to the entries whose value is not
`None`; the non-optional fields are always present. -/
def Track.to_dict (t : Track) : TrackDict :=
  { filename := some t.filename
    title := some t.title
    artist := t.artist
    album := t.album
    duration := some t.duration
    track_number := t.track_number
    year := t.year
    genre := t.genre
    downloaded_date := t.downloaded_date
    source_id := t.source_id
    file_hash := t.file_hash
    play_count := some t.play_count
    skip_count := some t.skip_count
    last_played := t.last_played }

/-- `Track.from_dict`: keyword construction with dataclass defaults for the
missing keys; `filename` and `title` have no default, so their absence makes
the constructor raise (`none`). -/
def Track.from_dict (d : TrackDict) : Option Track :=
  match d.filename, d.title with
  | some fn, some ti =>
      some { filename := fn
             title := ti
             artist := d.artist
             album := d.album
             duration := d.duration.getD 0
             track_number := d.track_number
             year := d.year
             genre := d.genre
             downloaded_date := d.downloaded_date
             source_id := d.source_id
             file_hash := d.file_hash
             play_count := d.play_count.getD 0
             skip_count := d.skip_count.getD 0
             last_played := d.last_played }
  | _, _ => none

/-- Serialized form of `PlaylistSettings` (`asdict` keeps every key). -/
structure SettingsDict where
  shuffle_enabled : Option Bool := none
  repeat_mode : Option String := none
  volume : Option ℚ := none
  equalizer_preset : Option String := none
deriving DecidableEq

/-- `PlaylistSettings.to_dict`. -/
def PlaylistSettings.to_dict (s : PlaylistSettings) : SettingsDict :=
  { shuffle_enabled := some s.shuffle_enabled
    repeat_mode := some s.repeat_mode
    volume := some s.volume
    equalizer_preset := some s.equalizer_preset }

/-- `PlaylistSettings.from_dict`: every field has a dataclass default. -/
def PlaylistSettings.from_dict (d : SettingsDict) : PlaylistSettings :=
  { shuffle_enabled := d.shuffle_enabled.getD false
    repeat_mode := d.repeat_mode.getD "none"
    volume := d.volume.getD (8/10)
    equalizer_preset := d.equalizer_preset.getD "default" }

/-- Serialized form of `PlaylistSource` (`None` values dropped). -/
structure SourceDict where
  type : Option String := none
  url : Option String := none
  last_sync : Option String := none
deriving DecidableEq

/-- `PlaylistSource.to_dict`. -/
def PlaylistSource.to_dict (s : PlaylistSource) : SourceDict :=
  { type := some s.type, url := s.url, last_sync := s.last_sync }

/-- `PlaylistSource.from_dict`: `type` has no default. -/
def PlaylistSource.from_dict (d : SourceDict) : Option PlaylistSource :=
  match d.type with
  | some ty => some { type := ty, url := d.url, last_sync := d.last_sync }
  | none => none

/-- The manifest document `playlist.json` as a JSON object. -/
structure PlaylistData where
  name : Option String := none
  description : Option String := none
  created_date : Option String := none
  modified_date : Option String := none
  cover_image : Option String := none
  total_duration : Option ℚ := none
  track_count : Option Int := none
  tags : Option (List String) := none
  source : Option SourceDict := none
  settings : Option SettingsDict := none
  tracks : Option (List TrackDict) := none
deriving DecidableEq

/-! ### `Playlist.save` and `Playlist.load` -/

/-- `Playlist.save` (playlist_manager.py lines 156-180): recompute derived
fields, stamp `modified_date` with the current time, and serialize.  The
result is the mutated in-memory object together with the JSON document that
`FileUtils.save_json` writes. -/
def Playlist.save (p : Playlist) (now : String) : Playlist × PlaylistData :=
  let p' : Playlist :=
    { p with
      modified_date := now
      track_count := (p.tracks.length : Int)
      total_duration := (p.tracks.map Track.duration).sum }
  (p',
   { name := some p'.name
     description := some p'.description
     created_date := some p'.created_date
     modified_date := some p'.modified_date
     cover_image := p'.cover_image
     total_duration := some p'.total_duration
     track_count := some p'.track_count
     tags := some p'.tags
     source := some p'.source.to_dict
     settings := some p'.settings.to_dict
     tracks := some (p'.tracks.map Track.to_dict) })

/-- The in-memory state after `save`, discarding the written document. -/
def Playlist.save_state (p : Playlist) (now : String) : Playlist :=
  (p.save now).1

/-- The `for track_data in data.get('tracks', [])` loop of `Playlist.load`:
each entry goes through `Track.from_dict`, and an exception anywhere aborts
the whole load. -/
def tracksFromDicts : List TrackDict → Option (List Track)
  | [] => some []
  | d :: ds =>
      match Track.from_dict d, tracksFromDicts ds with
      | some t, some ts => some (t :: ts)
      | _, _ => none

/-- `Playlist.load` (playlist_manager.py lines 122-154): `p` is the object
state before loading, `data?` the result of `FileUtils.load_json`; `none`
models the `if not data: return False` early exit and any exception raised
while rebuilding tracks or source. -/
def Playlist.load (p : Playlist) (data? : Option PlaylistData) : Option Playlist :=
  match data? with
  | none => none
  | some data =>
      let source? : Option PlaylistSource :=
        match data.source with
        | none => some p.source
        | some sd => PlaylistSource.from_dict sd
      match source?, tracksFromDicts (data.tracks.getD []) with
      | some source, some tracks =>
          some { p with
                 name := data.name.getD p.name
                 description := data.description.getD ""
                 created_date := data.created_date.getD p.created_date
                 modified_date := data.modified_date.getD p.modified_date
                 cover_image := data.cover_image
                 total_duration := data.total_duration.getD 0
                 track_count := data.track_count.getD 0
                 tags := data.tags.getD []
                 source := source
                 settings := (data.settings.map PlaylistSettings.from_dict).getD p.settings
                 tracks := tracks }
      | _, _ => none

/-! ### Track mutation operations -/

/-- Default track value backing Python's runtime list indexing. -/
instance : Inhabited Track := ⟨{ filename := "", title := "" }⟩

/-- `Playlist.reorder_tracks` (lines 225-237): validate both indices against
the current length, then `pop(old_index)` followed by
`insert(new_index, track)`, then save.  Returns the new state and the
returned boolean. -/
def Playlist.reorder_tracks (p : Playlist) (old_index new_index : Int) (now : String) :
    Playlist × Bool :=
  if old_index < 0 ∨ (p.tracks.length : Int) ≤ old_index then (p, false)
  else if new_index < 0 ∨ (p.tracks.length : Int) ≤ new_index then (p, false)
  else
    let track := p.tracks.getD old_index.toNat default
    let tracks' := (p.tracks.eraseIdx old_index.toNat).insertIdx new_index.toNat track
    (Playlist.save_state { p with tracks := tracks' } now, true)

/-- `getD` at an in-bounds index is plain indexing. -/
theorem getD_eq_getElem_of_lt (l : List α) (d : α) (n : Nat) (h : n < l.length) :
    l.getD n d = l[n] := by
  simp [List.getD_eq_getElem?_getD, List.getElem?_eq_getElem h]

/-- Re-inserting the removed element at its own index restores the list. -/
theorem insertIdx_getElem_eraseIdx (l : List α) (i : Nat) (h : i < l.length) :
    (l.eraseIdx i).insertIdx i l[i] = l := by
  induction l generalizing i with
  | nil => simp at h
  | cons a t ih =>
      cases i with
      | zero => simp [List.insertIdx]
      | succ n =>
          simp only [List.eraseIdx, List.getElem_cons_succ, List.insertIdx_succ_cons,
            List.cons.injEq, true_and]
          exact ih n (by simpa using h)

/-- In-bounds characterization of `reorder_tracks`: it succeeds and the new
sequence is the old one with the indexed element erased and re-inserted. -/
theorem reorder_tracks_tracks (p : Playlist) (i j : Int) (now : String)
    (hi : 0 ≤ i ∧ i < (p.tracks.length : Int)) (hj : 0 ≤ j ∧ j < (p.tracks.length : Int)) :
    (p.reorder_tracks i j now).1.tracks =
      (p.tracks.eraseIdx i.toNat).insertIdx j.toNat (p.tracks.getD i.toNat default) ∧
    (p.reorder_tracks i j now).2 = true := by
  rw [Playlist.reorder_tracks, if_neg (by omega), if_neg (by omega)]
  exact ⟨rfl, rfl⟩

/-- C4: for every track sequence and every pair of in-bounds indices,
`reorder_tracks old new` followed by `reorder_tracks new old` restores the
original track sequence, and a reorder is a relocation: the moved track ends
up at index `new` while erasing it there leaves exactly the original sequence
with the track erased at `old` (relative order of all other tracks
preserved). -/
theorem reorder_tracks_involutive (p : Playlist) (i j : Int) (now now' : String)
    (hi : 0 ≤ i ∧ i < (p.tracks.length : Int)) (hj : 0 ≤ j ∧ j < (p.tracks.length : Int)) :
    ((p.reorder_tracks i j now).1.reorder_tracks j i now').1.tracks = p.tracks ∧
    (p.reorder_tracks i j now).1.tracks.eraseIdx j.toNat = p.tracks.eraseIdx i.toNat ∧
    (p.reorder_tracks i j now).1.tracks.getD j.toNat default =
      p.tracks.getD i.toNat default := by
  have hi' : i.toNat < p.tracks.length := by omega
  have hj' : j.toNat < p.tracks.length := by omega
  obtain ⟨ht1, -⟩ := reorder_tracks_tracks p i j now hi hj
  have hjle : j.toNat ≤ (p.tracks.eraseIdx i.toNat).length := by
    rw [List.length_eraseIdx_of_lt hi']
    omega
  have hlen1 : ((p.tracks.eraseIdx i.toNat).insertIdx j.toNat
      (p.tracks.getD i.toNat default)).length = p.tracks.length := by
    rw [List.length_insertIdx _ _ hjle, List.length_eraseIdx_of_lt hi']
    omega
  have hget : (p.reorder_tracks i j now).1.tracks.getD j.toNat default =
      p.tracks.getD i.toNat default := by
    rw [ht1, getD_eq_getElem_of_lt _ _ _ (by rw [hlen1]; exact hj'),
      List.getElem_insertIdx_self _ _ _ hjle]
  have herase : (p.reorder_tracks i j now).1.tracks.eraseIdx j.toNat =
      p.tracks.eraseIdx i.toNat := by
    rw [ht1]
    exact List.eraseIdx_insertIdx _ _
  refine ⟨?_, herase, hget⟩
  obtain ⟨ht2, -⟩ := reorder_tracks_tracks (p.reorder_tracks i j now).1 j i now'
    (by rw [ht1, hlen1]; omega) (by rw [ht1, hlen1]; omega)
  rw [ht2, herase, hget, getD_eq_getElem_of_lt _ _ _ hi']
  exact insertIdx_getElem_eraseIdx p.tracks i.toNat hi'

/-- Closed instance of `reorder_tracks_involutive` at a concrete playlist. -/
theorem reorder_tracks_involutive_witness :
    ∃ p : Playlist,
      ((p.reorder_tracks 0 2 "t1").1.reorder_tracks 2 0 "t2").1.tracks = p.tracks := by
  refine ⟨{ path := "pl", name := "pl", created_date := "t0", modified_date := "t0",
            tracks := [{ filename := "a.mp3", title := "a" },
                       { filename := "b.mp3", title := "b" },
                       { filename := "c.mp3", title := "c" }] }, ?_⟩
  exact (reorder_tracks_involutive _ 0 2 "t1" "t2"
    (by constructor <;> decide) (by constructor <;> decide)).1

/-! ### C1: save/load round trip -/

/-- A serialized track deserializes back to itself. -/
theorem from_dict_to_dict (t : Track) : Track.from_dict t.to_dict = some t := by
  cases t
  rfl

/-- The track loop of `load` inverts the track mapping of `save`. -/
theorem tracksFromDicts_map_to_dict (l : List Track) :
    tracksFromDicts (l.map Track.to_dict) = some l := by
  induction l with
  | nil => rfl
  | cons t ts ih =>
      simp only [List.map_cons, tracksFromDicts, from_dict_to_dict, ih]

/-- A serialized source deserializes back to itself. -/
theorem source_from_dict_to_dict (s : PlaylistSource) :
    PlaylistSource.from_dict s.to_dict = some s := by
  cases s
  rfl

/-- Serialized settings deserialize back to themselves. -/
theorem settings_from_dict_to_dict (s : PlaylistSettings) :
    PlaylistSettings.from_dict s.to_dict = s := by
  cases s
  rfl

/-- C1: for every playlist, `save` then `load` reproduces all non-derived
fields (name, description, created_date, cover_image, tags, source, settings,
tracks), and after `save` the derived fields of both the saved object and the
reloaded object equal their recomputed values: `track_count` is the length of
the track sequence and `total_duration` is the sum of the tracks'
durations. -/
theorem save_load_roundtrip (p : Playlist) (now : String) (q : Playlist) :
    ∃ r, Playlist.load q (some (p.save now).2) = some r ∧
      r.name = p.name ∧
      r.description = p.description ∧
      r.created_date = p.created_date ∧
      r.cover_image = p.cover_image ∧
      r.tags = p.tags ∧
      r.source = p.source ∧
      r.settings = p.settings ∧
      r.tracks = p.tracks ∧
      r.track_count = (p.tracks.length : Int) ∧
      r.total_duration = (p.tracks.map Track.duration).sum ∧
      (p.save now).1.track_count = (p.tracks.length : Int) ∧
      (p.save now).1.total_duration = (p.tracks.map Track.duration).sum := by
  refine ⟨{ q with
      name := p.name
      description := p.description
      created_date := p.created_date
      modified_date := now
      cover_image := p.cover_image
      total_duration := (p.tracks.map Track.duration).sum
      track_count := (p.tracks.length : Int)
      tags := p.tags
      source := p.source
      settings := p.settings
      tracks := p.tracks }, ?_, rfl, rfl, rfl, rfl, rfl, rfl, rfl, rfl, rfl, rfl, rfl, rfl⟩
  simp only [Playlist.save, Playlist.load, source_from_dict_to_dict,
    tracksFromDicts_map_to_dict, settings_from_dict_to_dict, Option.getD_some,
    Option.map_some', Option.getD, Option.some.injEq]

/-! ### C8: remove_track -/

/-- `Playlist.remove_track` (lines 205-223): validate the index, optionally
unlink the backing file, drop the track from the sequence, save.  The
filesystem is the list `fs` of file paths; the result carries the new
playlist state, the new filesystem, and the returned boolean. -/
def Playlist.remove_track (p : Playlist) (fs : List String) (index : Int)
    (delete_file : Bool) (now : String) : Playlist × List String × Bool :=
  if index < 0 ∨ (p.tracks.length : Int) ≤ index then (p, fs, false)
  else
    let track := p.tracks.getD index.toNat default
    let file_path := p.path ++ "/" ++ track.filename
    let fs' := if delete_file then fs.filter (fun f => f ≠ file_path) else fs
    (Playlist.save_state { p with tracks := p.tracks.eraseIdx index.toNat } now, fs', true)

/-- C8: `remove_track` with an index outside `[0, track_count)` returns an
out-of-range error (`false`) and leaves both the track sequence and the files
on disk unchanged; with an in-bounds index it removes exactly the indexed
track from the sequence and reports success. -/
theorem remove_track_bounds (p : Playlist) (fs : List String) (index : Int)
    (delete_file : Bool) (now : String) :
    ((index < 0 ∨ (p.tracks.length : Int) ≤ index) →
        p.remove_track fs index delete_file now = (p, fs, false)) ∧
    ((0 ≤ index ∧ index < (p.tracks.length : Int)) →
        (p.remove_track fs index delete_file now).1.tracks =
            p.tracks.eraseIdx index.toNat ∧
        (p.remove_track fs index delete_file now).2.2 = true) := by
  constructor
  · intro h
    rw [Playlist.remove_track, if_pos h]
  · intro h
    rw [Playlist.remove_track, if_neg (by omega)]
    exact ⟨rfl, rfl⟩

/-- Closed instance of `remove_track_bounds` at a concrete playlist: index 5
is out of range and leaves everything unchanged; index 0 removes the first
track. -/
theorem remove_track_bounds_witness :
    ∃ p : Playlist,
      p.remove_track ["pl/a.mp3"] 5 true "t1" = (p, ["pl/a.mp3"], false) ∧
      (p.remove_track ["pl/a.mp3"] 0 false "t1").1.tracks = [] := by
  refine ⟨{ path := "pl", name := "pl", created_date := "t0", modified_date := "t0",
            tracks := [{ filename := "a.mp3", title := "a" }] }, ?_, ?_⟩
  · exact (remove_track_bounds _ ["pl/a.mp3"] 5 true "t1").1 (by right; decide)
  · exact ((remove_track_bounds _ ["pl/a.mp3"] 0 false "t1").2 (by constructor <;> decide)).1

/-! ### C7: selection pinning under reorder (src/ui/main_window.py) -/

/-- The `MainWindow` playback-session state the claims touch: the selected
playlist (nullable) and the selected track index (-1 = none). -/
structure MainWindowState where
  current_playlist : Option Playlist := none
  current_track_index : Int := -1
deriving DecidableEq

/-- `MainWindow._on_track_reordered` (main_window.py lines 214-225): forward
the move to the playlist, then adjust the selection index. -/
def MainWindow.on_track_reordered (st : MainWindowState) (old_index new_index : Int)
    (now : String) : MainWindowState :=
  match st.current_playlist with
  | none => st
  | some pl =>
      let pl' := (pl.reorder_tracks old_index new_index now).1
      let idx := st.current_track_index
      let idx' :=
        if idx = old_index then new_index
        else if old_index < idx ∧ idx ≤ new_index then idx - 1
        else if new_index ≤ idx ∧ idx < old_index then idx + 1
        else idx
      { current_playlist := some pl', current_track_index := idx' }

/-- `getD` below the insertion point is unchanged. -/
theorem getD_insertIdx_lt (l : List α) (x d : α) (n k : Nat) (hn : k < n)
    (hk : k < l.length) : (l.insertIdx n x).getD k d = l.getD k d := by
  rw [getD_eq_getElem_of_lt _ _ _ hk,
    getD_eq_getElem_of_lt _ _ _ (lt_of_lt_of_le hk (List.length_le_length_insertIdx l x n))]
  exact List.getElem_insertIdx_of_lt l x n k hn hk

/-- `getD` at the insertion point is the inserted element. -/
theorem getD_insertIdx_self_eq (l : List α) (x d : α) (n : Nat) (hn : n ≤ l.length) :
    (l.insertIdx n x).getD n d = x := by
  rw [getD_eq_getElem_of_lt _ _ _ (by rw [List.length_insertIdx _ _ hn]; omega)]
  exact List.getElem_insertIdx_self _ _ _ hn

/-- `getD` above the insertion point shifts by one. -/
theorem getD_insertIdx_succ (l : List α) (x d : α) (n k : Nat) (h : n + k < l.length) :
    (l.insertIdx n x).getD (n + k + 1) d = l.getD (n + k) d := by
  rw [getD_eq_getElem_of_lt _ _ _ h,
    getD_eq_getElem_of_lt _ _ _ (by rw [List.length_insertIdx _ _ (by omega)]; omega)]
  exact List.getElem_insertIdx_add_succ l x n k h

/-- `getD` below the erased index is unchanged. -/
theorem getD_eraseIdx_lt (l : List α) (d : α) (i j : Nat) (_hi : i < l.length)
    (hj : j < (l.eraseIdx i).length) (hji : j < i) :
    (l.eraseIdx i).getD j d = l.getD j d := by
  rw [getD_eq_getElem_of_lt _ _ _ hj,
    getD_eq_getElem_of_lt _ _ _ (lt_of_lt_of_le hj (List.length_eraseIdx_le l i))]
  exact List.getElem_eraseIdx_of_lt l i j hj hji

/-- `getD` at or above the erased index shifts by one. -/
theorem getD_eraseIdx_ge (l : List α) (d : α) (i j : Nat) (hi : i < l.length)
    (hj : j < (l.eraseIdx i).length) (hij : i ≤ j) :
    (l.eraseIdx i).getD j d = l.getD (j + 1) d := by
  rw [getD_eq_getElem_of_lt _ _ _ hj,
    getD_eq_getElem_of_lt _ _ _ (by rw [List.length_eraseIdx_of_lt hi] at hj; omega)]
  exact List.getElem_eraseIdx_of_ge l i j hj hij

/-- Moving the element at `o` to `ν` relocates every position as the
selection-adjustment rule of `_on_track_reordered` predicts. -/
theorem getD_insertIdx_eraseIdx_move [Inhabited α] (l : List α) (o ν s : Nat)
    (ho : o < l.length) (hν : ν < l.length) (hs : s < l.length) :
    ((l.eraseIdx o).insertIdx ν (l.getD o default)).getD
      (if s = o then ν
       else if o < s ∧ s ≤ ν then s - 1
       else if ν ≤ s ∧ s < o then s + 1
       else s) default = l.getD s default := by
  have hel : (l.eraseIdx o).length = l.length - 1 := List.length_eraseIdx_of_lt ho
  have hνle : ν ≤ (l.eraseIdx o).length := by omega
  by_cases h1 : s = o
  · subst h1
    rw [if_pos rfl]
    exact getD_insertIdx_self_eq _ _ _ _ hνle
  rw [if_neg h1]
  by_cases h2 : o < s ∧ s ≤ ν
  · rw [if_pos h2]
    rw [getD_insertIdx_lt _ _ _ _ _ (by omega) (by omega)]
    rw [getD_eraseIdx_ge _ _ _ _ ho (by omega) (by omega)]
    have hidx : s - 1 + 1 = s := by omega
    rw [hidx]
  rw [if_neg h2]
  by_cases h3 : ν ≤ s ∧ s < o
  · rw [if_pos h3]
    have hidx : s + 1 = ν + (s - ν) + 1 := by omega
    rw [hidx, getD_insertIdx_succ _ _ _ _ _ (by omega)]
    have hidx2 : ν + (s - ν) = s := by omega
    rw [hidx2]
    exact getD_eraseIdx_lt _ _ _ _ ho (by omega) (by omega)
  rw [if_neg h3]
  rcases Nat.lt_or_ge s o with hso | hso
  · -- neither branch applies and s is below both indices
    have hsν : s < ν := by omega
    rw [getD_insertIdx_lt _ _ _ _ _ hsν (by omega)]
    exact getD_eraseIdx_lt _ _ _ _ ho (by omega) (by omega)
  · -- s is above both indices
    have hsν : ν < s := by omega
    have hso' : o < s := by omega
    have hidx : s = ν + (s - 1 - ν) + 1 := by omega
    conv_lhs => rw [hidx]
    rw [getD_insertIdx_succ _ _ _ _ _ (by omega),
      getD_eraseIdx_ge _ _ _ _ ho (by omega) (by omega)]
    congr 1
    omega

/-- C7: reordering while a track is selected keeps the selected logical track
pinned: for in-bounds `old_index`, `new_index` and selection, the selection
index becomes `new_index` when the moved track is the selected one, shifts by
-1 or +1 when the move crosses the selection, and is unchanged otherwise, and
in every case the adjusted index is in bounds and still denotes the same
track as before the reorder. -/
theorem on_track_reordered_pins_selection (st : MainWindowState) (pl : Playlist)
    (old_index new_index : Int) (now : String)
    (hpl : st.current_playlist = some pl)
    (ho : 0 ≤ old_index ∧ old_index < (pl.tracks.length : Int))
    (hn : 0 ≤ new_index ∧ new_index < (pl.tracks.length : Int))
    (hs : 0 ≤ st.current_track_index ∧ st.current_track_index < (pl.tracks.length : Int)) :
    ∃ pl',
      (MainWindow.on_track_reordered st old_index new_index now).current_playlist = some pl' ∧
      (st.current_track_index = old_index →
        (MainWindow.on_track_reordered st old_index new_index now).current_track_index =
          new_index) ∧
      (old_index < st.current_track_index ∧ st.current_track_index ≤ new_index →
        (MainWindow.on_track_reordered st old_index new_index now).current_track_index =
          st.current_track_index - 1) ∧
      (new_index ≤ st.current_track_index ∧ st.current_track_index < old_index →
        (MainWindow.on_track_reordered st old_index new_index now).current_track_index =
          st.current_track_index + 1) ∧
      (st.current_track_index ≠ old_index ∧
          ¬(old_index < st.current_track_index ∧ st.current_track_index ≤ new_index) ∧
          ¬(new_index ≤ st.current_track_index ∧ st.current_track_index < old_index) →
        (MainWindow.on_track_reordered st old_index new_index now).current_track_index =
          st.current_track_index) ∧
      0 ≤ (MainWindow.on_track_reordered st old_index new_index now).current_track_index ∧
      (MainWindow.on_track_reordered st old_index new_index now).current_track_index <
        (pl'.tracks.length : Int) ∧
      pl'.tracks.getD
          (MainWindow.on_track_reordered st old_index new_index now).current_track_index.toNat
          default =
        pl.tracks.getD st.current_track_index.toNat default := by
  obtain ⟨ht1, -⟩ := reorder_tracks_tracks pl old_index new_index now ho hn
  have ho' : old_index.toNat < pl.tracks.length := by omega
  have hn' : new_index.toNat < pl.tracks.length := by omega
  have hs' : st.current_track_index.toNat < pl.tracks.length := by omega
  have hlen : (pl.reorder_tracks old_index new_index now).1.tracks.length =
      pl.tracks.length := by
    rw [ht1, List.length_insertIdx _ _ (by rw [List.length_eraseIdx_of_lt ho']; omega),
      List.length_eraseIdx_of_lt ho']
    omega
  simp only [MainWindow.on_track_reordered, hpl]
  refine ⟨_, rfl, ?_, ?_, ?_, ?_, ?_, ?_, ?_⟩
  · intro h
    simp only [if_pos h]
  · intro h
    rw [if_neg (by omega), if_pos h]
  · intro h
    rw [if_neg (by omega), if_neg (by omega), if_pos h]
  · intro h
    rw [if_neg h.1, if_neg h.2.1, if_neg h.2.2]
  · split_ifs <;> omega
  · rw [hlen]
    split_ifs <;> omega
  · rw [ht1]
    have hidx : (if st.current_track_index = old_index then new_index
        else if old_index < st.current_track_index ∧ st.current_track_index ≤ new_index then
          st.current_track_index - 1
        else if new_index ≤ st.current_track_index ∧ st.current_track_index < old_index then
          st.current_track_index + 1
        else st.current_track_index).toNat =
        (if st.current_track_index.toNat = old_index.toNat then new_index.toNat
         else if old_index.toNat < st.current_track_index.toNat ∧
             st.current_track_index.toNat ≤ new_index.toNat then
           st.current_track_index.toNat - 1
         else if new_index.toNat ≤ st.current_track_index.toNat ∧
             st.current_track_index.toNat < old_index.toNat then
           st.current_track_index.toNat + 1
         else st.current_track_index.toNat) := by
      split_ifs <;> omega
    rw [hidx]
    exact getD_insertIdx_eraseIdx_move pl.tracks old_index.toNat new_index.toNat
      st.current_track_index.toNat ho' hn' hs'

/-- A concrete three-track playlist shared by the closed witnesses. -/
def samplePlaylist : Playlist :=
  { path := "pl", name := "pl", created_date := "t0", modified_date := "t0",
    tracks := [{ filename := "a.mp3", title := "a" },
               { filename := "b.mp3", title := "b" },
               { filename := "c.mp3", title := "c" }] }

/-- Closed instance of `on_track_reordered_pins_selection`: moving track 0 to
position 2 while track 1 is selected keeps the same track selected. -/
theorem on_track_reordered_pins_selection_witness :
    ∃ pl',
      (MainWindow.on_track_reordered
          { current_playlist := some samplePlaylist, current_track_index := 1 } 0 2
          "t").current_playlist = some pl' ∧
      pl'.tracks.getD
          (MainWindow.on_track_reordered
              { current_playlist := some samplePlaylist, current_track_index := 1 } 0 2
              "t").current_track_index.toNat default =
        samplePlaylist.tracks.getD 1 default := by
  obtain ⟨pl', h1, -, -, -, -, -, -, h8⟩ :=
    on_track_reordered_pins_selection
      { current_playlist := some samplePlaylist, current_track_index := 1 }
      samplePlaylist 0 2 "t" rfl (by decide) (by decide) (by decide)
  exact ⟨pl', h1, h8⟩

/-! ### C5: volume handling (src/core/audio_player.py) -/

/-- The `AudioPlayer` state the claims touch: the remembered track and
volume, plus the backend pipeline properties the player sets.  GStreamer's
`playbin` starts with volume 1. -/
structure AudioPlayerState where
  current_track : Option String := none
  volume : ℚ := 8/10
  is_paused : Bool := false
  pipeline_uri : Option String := none
  pipeline_state : String := "NULL"
  pipeline_volume : ℚ := 1
deriving DecidableEq

/-- `AudioPlayer.__init__` (audio_player.py lines 18-39). -/
def AudioPlayer.init : AudioPlayerState := {}

/-- `AudioPlayer.set_volume` (lines 87-92): only a level inside `[0, 1]` is
stored and forwarded to the pipeline; any other level is ignored. -/
def AudioPlayer.set_volume (s : AudioPlayerState) (level : ℚ) : AudioPlayerState :=
  if 0 ≤ level ∧ level ≤ 1 then
    { s with volume := level, pipeline_volume := level }
  else s

/-- `AudioPlayer.play` (lines 70-75): remember the track, point the pipeline
at it and start playing; the volume fields are untouched. -/
def AudioPlayer.play (s : AudioPlayerState) (track_path : String) : AudioPlayerState :=
  { s with
    current_track := some track_path
    pipeline_uri := some track_path
    pipeline_state := "PLAYING" }

/-- C5 counterexample: `set_volume` does not clamp an out-of-range input.
On the freshly initialized player, `set_volume 2` leaves the stored volume at
its previous value 8/10 instead of the clamped value
`max 0 (min 1 2) = 1`. -/
theorem set_volume_not_clamped :
    (AudioPlayer.set_volume AudioPlayer.init 2).volume = 8/10 ∧
    max (0 : ℚ) (min 1 2) = 1 ∧
    (AudioPlayer.set_volume AudioPlayer.init 2).volume ≠ max (0 : ℚ) (min 1 2) := by
  refine ⟨rfl, by norm_num, ?_⟩
  intro h
  rw [show (AudioPlayer.set_volume AudioPlayer.init 2).volume = 8/10 from rfl] at h
  norm_num at h

/-- C5 (amended): if the stored volume lies in `[0, 1]` beforehand then it
still does after any `set_volume` call; an in-range level is stored and
applied immediately to the backend pipeline, an out-of-range level is ignored
(the whole state is unchanged — not clamped), and playing a new track leaves
the stored volume untouched. -/
theorem set_volume_bounds (s : AudioPlayerState) (level : ℚ) (track_path : String)
    (h : 0 ≤ s.volume ∧ s.volume ≤ 1) :
    (0 ≤ (AudioPlayer.set_volume s level).volume ∧
      (AudioPlayer.set_volume s level).volume ≤ 1) ∧
    ((0 ≤ level ∧ level ≤ 1) →
      (AudioPlayer.set_volume s level).volume = level ∧
      (AudioPlayer.set_volume s level).pipeline_volume = level) ∧
    (¬(0 ≤ level ∧ level ≤ 1) → AudioPlayer.set_volume s level = s) ∧
    (AudioPlayer.play (AudioPlayer.set_volume s level) track_path).volume =
      (AudioPlayer.set_volume s level).volume := by
  refine ⟨?_, ?_, ?_, rfl⟩
  · rw [AudioPlayer.set_volume]
    split_ifs with hc
    · exact hc
    · exact h
  · intro hc
    rw [AudioPlayer.set_volume, if_pos hc]
    exact ⟨rfl, rfl⟩
  · intro hc
    rw [AudioPlayer.set_volume, if_neg hc]

/-- Closed instance of `set_volume_bounds` on the initial player at
level 1/2. -/
theorem set_volume_bounds_witness :
    (0 ≤ (AudioPlayer.set_volume AudioPlayer.init (1/2)).volume ∧
      (AudioPlayer.set_volume AudioPlayer.init (1/2)).volume ≤ 1) ∧
    (AudioPlayer.set_volume AudioPlayer.init (1/2)).volume = 1/2 ∧
    (AudioPlayer.play (AudioPlayer.set_volume AudioPlayer.init (1/2)) "x.mp3").volume =
      (AudioPlayer.set_volume AudioPlayer.init (1/2)).volume := by
  obtain ⟨h1, h2, -, h4⟩ :=
    set_volume_bounds AudioPlayer.init (1/2) "x.mp3" (by norm_num [AudioPlayer.init])
  exact ⟨h1, (h2 (by constructor <;> norm_num)).1, h4⟩

/-! ### C6: previous-track policy (src/ui/main_window.py) -/

/-- Commands the window issues to the audio player. -/
inductive PlayerCommand where
  | seek (pos : ℚ)
  | play (path : String)
deriving DecidableEq

/-- `Playlist.get_track_path` (playlist_manager.py lines 250-254). -/
def Playlist.get_track_path (p : Playlist) (index : Int) : Option String :=
  if 0 ≤ index ∧ index < (p.tracks.length : Int) then
    some (p.path ++ "/" ++ (p.tracks.getD index.toNat default).filename)
  else none

/-- `MainWindow._play_current_track` (main_window.py lines 260-275) reduced
to the command it sends: play the selected track if one is selected and its
file exists (`fs` is the set of present file paths). -/
def MainWindow.play_current_track (st : MainWindowState) (fs : List String) :
    List PlayerCommand :=
  match st.current_playlist with
  | none => []
  | some pl =>
      if st.current_track_index < 0 then []
      else
        match pl.get_track_path st.current_track_index with
        | some track_path =>
            if track_path ∈ fs then [PlayerCommand.play track_path] else []
        | none => []

/-- `MainWindow._play_previous` (main_window.py lines 290-300): `position` is
what `audio_player.get_position()` returns.  Past three seconds the track is
restarted with a seek; otherwise the index moves circularly backward (Python
`%` on a positive modulus is `Int.emod`) and the track at the new index is
played. -/
def MainWindow.play_previous (st : MainWindowState) (position : ℚ) (fs : List String) :
    MainWindowState × List PlayerCommand :=
  match st.current_playlist with
  | none => (st, [])
  | some pl =>
      if pl.tracks = [] then (st, [])
      else if position > 3 then (st, [PlayerCommand.seek 0])
      else
        let st' := { st with
          current_track_index := (st.current_track_index - 1) % (pl.tracks.length : Int) }
        (st', MainWindow.play_current_track st' fs)

/-- C6: with a non-empty selected playlist, `previous()` at a position past
3 seconds seeks to 0 and leaves the selected index unchanged; at a position
of at most 3 seconds it decrements the index circularly — index 0 wraps to
the last track — and plays the track at the new index (whose file exists in
`fs`). -/
theorem play_previous_policy (st : MainWindowState) (pl : Playlist) (position : ℚ)
    (fs : List String)
    (hpl : st.current_playlist = some pl) (hne : pl.tracks ≠ [])
    (hs : 0 ≤ st.current_track_index ∧ st.current_track_index < (pl.tracks.length : Int)) :
    (position > 3 →
      MainWindow.play_previous st position fs = (st, [PlayerCommand.seek 0])) ∧
    (position ≤ 3 →
      (MainWindow.play_previous st position fs).1.current_track_index =
        (st.current_track_index - 1) % (pl.tracks.length : Int) ∧
      (st.current_track_index = 0 →
        (MainWindow.play_previous st position fs).1.current_track_index =
          (pl.tracks.length : Int) - 1) ∧
      (pl.path ++ "/" ++
            (pl.tracks.getD ((st.current_track_index - 1) %
              (pl.tracks.length : Int)).toNat default).filename ∈ fs →
        (MainWindow.play_previous st position fs).2 =
          [PlayerCommand.play (pl.path ++ "/" ++
            (pl.tracks.getD ((st.current_track_index - 1) %
              (pl.tracks.length : Int)).toNat default).filename)])) := by
  have hlen : 0 < (pl.tracks.length : Int) := by
    have := List.length_pos.mpr hne
    omega
  have hmod : 0 ≤ (st.current_track_index - 1) % (pl.tracks.length : Int) ∧
      (st.current_track_index - 1) % (pl.tracks.length : Int) < (pl.tracks.length : Int) := by
    constructor
    · exact Int.emod_nonneg _ (by omega)
    · exact Int.emod_lt_of_pos _ hlen
  constructor
  · intro hpos
    simp only [MainWindow.play_previous, hpl, if_neg hne, if_pos hpos]
  · intro hpos
    have hnotpos : ¬(position > 3) := by exact not_lt.mpr hpos
    simp only [MainWindow.play_previous, hpl, if_neg hne, if_neg hnotpos]
    refine ⟨by trivial, ?_, ?_⟩
    · intro h0
      rw [h0]
      simp only [zero_sub]
      have h1 : (-1 : Int) % (pl.tracks.length : Int) =
          ((pl.tracks.length : Int) - 1) % (pl.tracks.length : Int) := by
        conv_lhs => rw [show (-1 : Int) = ((pl.tracks.length : Int) - 1) +
          (pl.tracks.length : Int) * (-1) by ring]
        rw [Int.add_mul_emod_self_left]
      rw [h1, Int.emod_eq_of_lt (by omega) (by omega)]
    · intro hin
      simp only [MainWindow.play_current_track, hpl, Playlist.get_track_path]
      rw [if_neg (show ¬((st.current_track_index - 1) % (pl.tracks.length : Int) < 0) by
        omega)]
      rw [if_pos hmod]
      exact if_pos hin

/-! ### C9: service identification (src/core/downloader.py) -/

/-- `PlaylistDownloader.identify_service` (downloader.py lines 102-110).
URLs are character lists and Python's substring test `in` is list-infix. -/
def identify_service (url : List Char) : Option String :=
  if "spotify.com".data <:+: url then some "spotify"
  else if "youtube.com".data <:+: url ∨ "youtu.be".data <:+: url then some "youtube"
  else if "music.youtube.com".data <:+: url then some "youtube_music"
  else none

/-- C9: `identify_service` only ever returns `spotify`, `youtube` or `None`,
and in particular never `youtube_music`: a URL containing
`music.youtube.com` also contains `youtube.com`, which is tested first, so
the `youtube_music` branch is unreachable. -/
theorem identify_service_range (url : List Char) :
    (identify_service url = some "spotify" ∨ identify_service url = some "youtube" ∨
      identify_service url = none) ∧
    identify_service url ≠ some "youtube_music" := by
  have hsub : "youtube.com".data <:+: "music.youtube.com".data := by decide
  rw [identify_service]
  split_ifs with h1 h2 h3
  · exact ⟨Or.inl rfl, by simp⟩
  · exact ⟨Or.inr (Or.inl rfl), by simp⟩
  · -- the youtube_music branch is unreachable
    exfalso
    apply h2
    left
    obtain ⟨s, t, hst⟩ := hsub
    obtain ⟨u, v, huv⟩ := h3
    refine ⟨u ++ s, t ++ v, ?_⟩
    rw [← huv, ← hst]
    simp [List.append_assoc]
  · exact ⟨Or.inr (Or.inr rfl), by simp⟩

/-! ### C10: add_track duplicate handling (src/core/playlist_manager.py) -/

/-- A file path split as Python's `Path.parent` and `Path.name`. -/
structure SrcPath where
  parent : String
  name : String
deriving DecidableEq

/-- The fields `MetadataUtils.read_metadata` yields for a file, as consumed
by `Track.from_file`; the tag reader is an external capability, so tracks
receive it as an oracle. -/
structure FileMeta where
  title : Option String := none
  artist : Option String := none
  album : Option String := none
  duration : ℚ := 0
  track_number : Option Int := none
  year : Option Int := none
  genre : Option String := none
deriving DecidableEq

/-- Python's `Path.stem`: the name with its last extension removed (a name
without a dot, or starting with its only dot, is unchanged). -/
def stemOf (s : String) : String :=
  let pre := ((s.data.reverse.dropWhile (fun c => c != '.')).drop 1).reverse
  if pre.isEmpty then s else String.mk pre

/-- `Track.from_file` (playlist_manager.py lines 45-62): both call sites pass
a file directly inside the playlist directory, so the path relative to the
playlist directory is the file's name.  `meta` is the tag-reader capability
and `hash` the file-hash function. -/
def Track.from_file (filepath : SrcPath) (meta : SrcPath → FileMeta)
    (hash : SrcPath → String) (now : String) : Track :=
  let m := meta filepath
  { filename := filepath.name
    title := m.title.getD (stemOf filepath.name)
    artist := m.artist
    album := m.album
    duration := m.duration
    track_number := m.track_number
    year := m.year
    genre := m.genre
    downloaded_date := some now
    file_hash := some (hash filepath) }

/-- `Playlist.add_track` (playlist_manager.py lines 182-203): a missing
source file fails; a source outside the playlist directory is copied in
unless the destination name already exists there; a source already inside
the playlist directory is appended directly with no existence check.  `fs`
is the list of files present on disk. -/
def Playlist.add_track (p : Playlist) (fs : List SrcPath) (audio_file : SrcPath)
    (meta : SrcPath → FileMeta) (hash : SrcPath → String) (now : String) :
    Playlist × List SrcPath × Bool :=
  if audio_file ∉ fs then (p, fs, false)
  else if audio_file.parent ≠ p.path then
    let dest : SrcPath := { parent := p.path, name := audio_file.name }
    if dest ∈ fs then (p, fs, false)
    else
      let track := Track.from_file dest meta hash now
      (Playlist.save_state { p with tracks := p.tracks ++ [track] } now,
       fs ++ [dest], true)
  else
    let track := Track.from_file audio_file meta hash now
    (Playlist.save_state { p with tracks := p.tracks ++ [track] } now, fs, true)

/-- C10: for an existing source file whose parent directory equals the
playlist directory, `add_track` skips the existence check and appends a new
track — the statement carries no assumption about the tracks already in the
sequence, so this holds even when a track of the same filename is already
present — and a rejection (`false` on an existing source) happens exactly
when the source lies outside the playlist directory and a file of its name
already exists inside it. -/
theorem add_track_inside_skips_duplicate_check (p : Playlist) (fs : List SrcPath)
    (audio_file : SrcPath) (meta : SrcPath → FileMeta) (hash : SrcPath → String)
    (now : String) (hex : audio_file ∈ fs) :
    (audio_file.parent = p.path →
      (p.add_track fs audio_file meta hash now).2.2 = true ∧
      (p.add_track fs audio_file meta hash now).1.tracks =
        p.tracks ++ [Track.from_file audio_file meta hash now] ∧
      (p.add_track fs audio_file meta hash now).2.1 = fs) ∧
    ((p.add_track fs audio_file meta hash now).2.2 = false ↔
      audio_file.parent ≠ p.path ∧
        ({ parent := p.path, name := audio_file.name } : SrcPath) ∈ fs) := by
  have hnn : ¬(audio_file ∉ fs) := not_not_intro hex
  constructor
  · intro hp
    rw [Playlist.add_track, if_neg hnn, if_neg (not_not_intro hp)]
    exact ⟨rfl, rfl, rfl⟩
  · by_cases hp : audio_file.parent = p.path
    · rw [Playlist.add_track, if_neg hnn, if_neg (not_not_intro hp)]
      simp [hp]
    · rw [Playlist.add_track, if_neg hnn, if_pos hp]
      by_cases hd : ({ parent := p.path, name := audio_file.name } : SrcPath) ∈ fs
      · rw [if_pos hd]
        simp [hp, hd]
      · rw [if_neg hd]
        simp [hp, hd]

/-- Closed instance of `add_track_inside_skips_duplicate_check`: the playlist
already lists `a.mp3`, yet adding `pl/a.mp3` (whose parent is the playlist
directory) succeeds and appends a second track of the same filename. -/
theorem add_track_inside_skips_duplicate_check_witness :
    (samplePlaylist.add_track [{ parent := "pl", name := "a.mp3" }]
        { parent := "pl", name := "a.mp3" } (fun _ => {}) (fun _ => "h") "t").2.2 = true ∧
    (samplePlaylist.add_track [{ parent := "pl", name := "a.mp3" }]
        { parent := "pl", name := "a.mp3" } (fun _ => {}) (fun _ => "h") "t").1.tracks =
      samplePlaylist.tracks ++
        [Track.from_file { parent := "pl", name := "a.mp3" } (fun _ => {})
          (fun _ => "h") "t"] := by
  obtain ⟨h1, -⟩ := add_track_inside_skips_duplicate_check samplePlaylist
    [{ parent := "pl", name := "a.mp3" }] { parent := "pl", name := "a.mp3" }
    (fun _ => {}) (fun _ => "h") "t" (by simp)
  obtain ⟨ha, hb, -⟩ := h1 rfl
  exact ⟨ha, hb⟩

/-! ### C3: download batch progress (src/core/downloader.py) -/

/-- The mutable `DownloadProgress` object (downloader.py lines 22-43). -/
structure DownloadProgress where
  total_tracks : Int := 0
  completed_tracks : Int := 0
  current_track : String := ""
  current_progress : ℚ := 0
  errors : List String := []
  skipped : List String := []
deriving DecidableEq

/-- The fields of a Spotify API track object that
`download_spotify_playlist` reads. -/
structure SpotifyTrack where
  artists : List String
  name : String
  album : String
  duration_ms : ℚ
  track_number : Int
  id : String
deriving DecidableEq

/-- A member of the playlist's `tracks.items` list; `track` may be null. -/
structure SpotifyItem where
  track : Option SpotifyTrack
deriving DecidableEq

/-- The YouTube search query built for one Spotify track. -/
def spotify_search_query (track : SpotifyTrack) : String :=
  String.intercalate ", " track.artists ++ " " ++ track.name ++ " audio"

/-- The `track_data` dictionary appended for one successfully downloaded
track (downloader.py lines 199-208). -/
def spotify_track_data (track : SpotifyTrack) (downloaded_file : String)
    (now : String) : TrackDict :=
  { filename := some downloaded_file
    title := some track.name
    artist := some (String.intercalate ", " track.artists)
    album := some track.album
    duration := some (track.duration_ms / 1000)
    track_number := some track.track_number
    downloaded_date := some now
    source_id := some ("spotify:track:" ++ track.id) }

/-- The per-member loop of `download_spotify_playlist` (downloader.py lines
181-215): skip null members, update `current_track`, attempt the download
through the fetcher capability `fetch`; on success append the track data and
bump `completed_tracks`, on failure append an error message and continue. -/
def process_spotify_items (fetch : String → Option String) (now : String) :
    List SpotifyItem → DownloadProgress → List TrackDict →
    DownloadProgress × List TrackDict
  | [], prog, acc => (prog, acc)
  | item :: rest, prog, acc =>
      match item.track with
      | none => process_spotify_items fetch now rest prog acc
      | some track =>
          let artist_names := String.intercalate ", " track.artists
          let prog1 := { prog with current_track := artist_names ++ " - " ++ track.name }
          match fetch (spotify_search_query track) with
          | some downloaded_file =>
              process_spotify_items fetch now rest
                { prog1 with completed_tracks := prog1.completed_tracks + 1 }
                (acc ++ [spotify_track_data track downloaded_file now])
          | none =>
              process_spotify_items fetch now rest
                { prog1 with
                  errors := prog1.errors ++ ["Failed to download: " ++ track.name] }
                acc

/-- The track-download phase of `download_spotify_playlist` (lines 177-219):
initialize the progress counters, run the member loop, and return the final
progress together with the `tracks` list persisted in the manifest. -/
def download_spotify_tracks (fetch : String → Option String) (now : String)
    (items : List SpotifyItem) : DownloadProgress × List TrackDict :=
  process_spotify_items fetch now items
    { total_tracks := (items.length : Int), completed_tracks := 0 } []

/-! The claim also covers `download_youtube_playlist` (downloader.py lines
265-319), whose per-entry loop has a second failure mode: when
`ydl.extract_info` returns without raising but the expected `.mp3` file is
absent, the member is skipped with no error recorded and no completion
counted. -/

/-- A flat-extracted YouTube playlist entry (`entry['id']`,
`entry.get('title')`); `if not entry: continue` makes entries nullable. -/
structure YtEntry where
  id : String
  title : Option String := none
deriving DecidableEq

/-- The fields of the `info_dict` returned by `ydl.extract_info` that the
loop reads. -/
structure YtInfoDict where
  title : Option String := none
  artist : Option String := none
  uploader : Option String := none
  album : Option String := none
  duration : Option ℚ := none
deriving DecidableEq

/-- The video URL built for one entry (downloader.py line 279). -/
def youtube_video_url (entry : YtEntry) : String :=
  "https://www.youtube.com/watch?v=" ++ entry.id

/-- The `track_data` dictionary appended for one materialized YouTube track
(downloader.py lines 298-306).  Python `or` treats an empty artist string as
missing. -/
def youtube_track_data (entry : YtEntry) (info : YtInfoDict) (mp3_filename : String)
    (now : String) : TrackDict :=
  { filename := some mp3_filename
    title := some (info.title.getD (stemOf mp3_filename))
    artist := some (match info.artist with
      | some a => if a = "" then info.uploader.getD "Unknown" else a
      | none => info.uploader.getD "Unknown")
    album := some (info.album.getD "")
    duration := some (info.duration.getD 0)
    downloaded_date := some now
    source_id := some ("youtube:video:" ++ entry.id) }

/-- The per-entry loop of `download_youtube_playlist` (downloader.py lines
275-315): skip null entries, update `current_track`, run the download inside
the `try` (`fetch` returns `none` when `extract_info` raises, otherwise the
`info_dict` and the name of the expected `.mp3`); the track is appended and
counted only when that file exists (`fs`), an exception appends an error,
and a present result whose file is absent does neither — a silent skip. -/
def process_youtube_entries (fetch : String → Option (YtInfoDict × String))
    (fs : List String) (now : String) :
    List (Option YtEntry) → DownloadProgress → List TrackDict →
    DownloadProgress × List TrackDict
  | [], prog, acc => (prog, acc)
  | none :: rest, prog, acc => process_youtube_entries fetch fs now rest prog acc
  | some entry :: rest, prog, acc =>
      let prog1 := { prog with current_track := entry.title.getD "Unknown" }
      match fetch (youtube_video_url entry) with
      | some (info_dict, mp3_filename) =>
          if mp3_filename ∈ fs then
            process_youtube_entries fetch fs now rest
              { prog1 with completed_tracks := prog1.completed_tracks + 1 }
              (acc ++ [youtube_track_data entry info_dict mp3_filename now])
          else
            process_youtube_entries fetch fs now rest prog1 acc
      | none =>
          process_youtube_entries fetch fs now rest
            { prog1 with
              errors := prog1.errors ++ ["Failed: " ++ entry.title.getD "Unknown"] }
            acc

/-- The track-download phase of `download_youtube_playlist` (lines 265-319):
initialize the progress counters, run the entry loop, and return the final
progress together with the `tracks` list persisted in the manifest. -/
def download_youtube_tracks (fetch : String → Option (YtInfoDict × String))
    (fs : List String) (now : String) (entries : List (Option YtEntry)) :
    DownloadProgress × List TrackDict :=
  process_youtube_entries fetch fs now entries
    { total_tracks := (entries.length : Int), completed_tracks := 0 } []

/-- A concrete five-member YouTube batch for the closed statements. -/
def ytSampleEntries : List (Option YtEntry) :=
  [some { id := "v1", title := some "t1" }, some { id := "v2", title := some "t2" },
   some { id := "v3", title := some "t3" }, some { id := "v4", title := some "t4" },
   some { id := "v5", title := some "t5" }]

/-- A fetcher whose download step succeeds on every member, naming the
expected file `sk.mp3`. -/
def ytSampleFetch : String → Option (YtInfoDict × String) :=
  fun url =>
    if url = "https://www.youtube.com/watch?v=v1" then some ({}, "s1.mp3")
    else if url = "https://www.youtube.com/watch?v=v2" then some ({}, "s2.mp3")
    else if url = "https://www.youtube.com/watch?v=v3" then some ({}, "s3.mp3")
    else if url = "https://www.youtube.com/watch?v=v4" then some ({}, "s4.mp3")
    else if url = "https://www.youtube.com/watch?v=v5" then some ({}, "s5.mp3")
    else none

/-- The same fetcher except that member 3's download raises. -/
def ytSampleFetchFail3 : String → Option (YtInfoDict × String) :=
  fun url =>
    if url = "https://www.youtube.com/watch?v=v3" then none else ytSampleFetch url

/-- C3 counterexample: in `download_youtube_playlist`, a five-member batch in
which exactly member 3 fails to materialize — the downloader returns without
raising but the expected `s3.mp3` never appears on disk — ends with
`completed_tracks = 4` and an empty errors list, not the errors list of
length 1 the claim states. -/
theorem download_batch_partial_failure_counterexample :
    (download_youtube_tracks ytSampleFetch ["s1.mp3", "s2.mp3", "s4.mp3", "s5.mp3"] "t"
        ytSampleEntries).1.completed_tracks = 4 ∧
    (download_youtube_tracks ytSampleFetch ["s1.mp3", "s2.mp3", "s4.mp3", "s5.mp3"] "t"
        ytSampleEntries).1.errors.length = 0 ∧
    (download_youtube_tracks ytSampleFetch ["s1.mp3", "s2.mp3", "s4.mp3", "s5.mp3"] "t"
        ytSampleEntries).1.errors.length ≠ 1 := by
  refine ⟨by decide, by decide, by decide⟩

/-- C3 (amended): for a batch of five members in which exactly member 3
fails to materialize, the final snapshot always has `completed_tracks = 4`
and the persisted manifest lists exactly the four successful tracks in fetch
order, and a single member's failure never aborts the remaining members; the
errors list has length 1 in the Spotify loop and in the YouTube loop when
the failure raises an exception, but length 0 in the YouTube loop when the
downloader returns without error and the expected `.mp3` file is simply
absent (that member is skipped silently). -/
theorem download_batch_failure_modes
    (sfetch : String → Option String) (now : String)
    (t1 t2 t3 t4 t5 : SpotifyTrack) (f1 f2 f4 f5 : String)
    (hs1 : sfetch (spotify_search_query t1) = some f1)
    (hs2 : sfetch (spotify_search_query t2) = some f2)
    (hs3 : sfetch (spotify_search_query t3) = none)
    (hs4 : sfetch (spotify_search_query t4) = some f4)
    (hs5 : sfetch (spotify_search_query t5) = some f5)
    (yfetch yfetch' : String → Option (YtInfoDict × String)) (fs : List String)
    (e1 e2 e3 e4 e5 : YtEntry) (i1 i2 i3 i4 i5 : YtInfoDict) (m1 m2 m3 m4 m5 : String)
    (hy1 : yfetch (youtube_video_url e1) = some (i1, m1))
    (hy2 : yfetch (youtube_video_url e2) = some (i2, m2))
    (hy3 : yfetch (youtube_video_url e3) = none)
    (hy4 : yfetch (youtube_video_url e4) = some (i4, m4))
    (hy5 : yfetch (youtube_video_url e5) = some (i5, m5))
    (hy1' : yfetch' (youtube_video_url e1) = some (i1, m1))
    (hy2' : yfetch' (youtube_video_url e2) = some (i2, m2))
    (hy3' : yfetch' (youtube_video_url e3) = some (i3, m3))
    (hy4' : yfetch' (youtube_video_url e4) = some (i4, m4))
    (hy5' : yfetch' (youtube_video_url e5) = some (i5, m5))
    (hm1 : m1 ∈ fs) (hm2 : m2 ∈ fs) (hm3' : m3 ∉ fs) (hm4 : m4 ∈ fs) (hm5 : m5 ∈ fs) :
    ((download_spotify_tracks sfetch now
        [⟨some t1⟩, ⟨some t2⟩, ⟨some t3⟩, ⟨some t4⟩,
          ⟨some t5⟩]).1.completed_tracks = 4 ∧
      (download_spotify_tracks sfetch now
        [⟨some t1⟩, ⟨some t2⟩, ⟨some t3⟩, ⟨some t4⟩, ⟨some t5⟩]).1.errors =
        ["Failed to download: " ++ t3.name] ∧
      (download_spotify_tracks sfetch now
        [⟨some t1⟩, ⟨some t2⟩, ⟨some t3⟩, ⟨some t4⟩,
          ⟨some t5⟩]).1.errors.length = 1 ∧
      (download_spotify_tracks sfetch now
        [⟨some t1⟩, ⟨some t2⟩, ⟨some t3⟩, ⟨some t4⟩, ⟨some t5⟩]).2 =
        [spotify_track_data t1 f1 now, spotify_track_data t2 f2 now,
         spotify_track_data t4 f4 now, spotify_track_data t5 f5 now]) ∧
    ((download_youtube_tracks yfetch fs now
        [some e1, some e2, some e3, some e4, some e5]).1.completed_tracks = 4 ∧
      (download_youtube_tracks yfetch fs now
        [some e1, some e2, some e3, some e4, some e5]).1.errors =
        ["Failed: " ++ e3.title.getD "Unknown"] ∧
      (download_youtube_tracks yfetch fs now
        [some e1, some e2, some e3, some e4, some e5]).1.errors.length = 1 ∧
      (download_youtube_tracks yfetch fs now
        [some e1, some e2, some e3, some e4, some e5]).2 =
        [youtube_track_data e1 i1 m1 now, youtube_track_data e2 i2 m2 now,
         youtube_track_data e4 i4 m4 now, youtube_track_data e5 i5 m5 now]) ∧
    ((download_youtube_tracks yfetch' fs now
        [some e1, some e2, some e3, some e4, some e5]).1.completed_tracks = 4 ∧
      (download_youtube_tracks yfetch' fs now
        [some e1, some e2, some e3, some e4, some e5]).1.errors = [] ∧
      (download_youtube_tracks yfetch' fs now
        [some e1, some e2, some e3, some e4, some e5]).1.errors.length = 0 ∧
      (download_youtube_tracks yfetch' fs now
        [some e1, some e2, some e3, some e4, some e5]).2 =
        [youtube_track_data e1 i1 m1 now, youtube_track_data e2 i2 m2 now,
         youtube_track_data e4 i4 m4 now, youtube_track_data e5 i5 m5 now]) := by
  refine ⟨?_, ?_, ?_⟩
  · simp only [download_spotify_tracks, process_spotify_items, hs1, hs2, hs3, hs4, hs5]
    refine ⟨by norm_num, by simp, by simp, by simp⟩
  · simp only [download_youtube_tracks, process_youtube_entries, hy1, hy2, hy3, hy4, hy5]
    rw [if_pos hm1, if_pos hm2, if_pos hm4, if_pos hm5]
    refine ⟨by norm_num, by simp, by simp, by simp⟩
  · simp only [download_youtube_tracks, process_youtube_entries, hy1', hy2', hy3', hy4',
      hy5']
    rw [if_pos hm1, if_pos hm2, if_neg hm3', if_pos hm4, if_pos hm5]
    refine ⟨by norm_num, by simp, by simp, by simp⟩

/-- Closed instance of `download_batch_failure_modes` on concrete batches:
member 3 failing yields four completions with one error in the Spotify loop
and in the raising YouTube mode, and four completions with zero errors in
the silent-skip YouTube mode. -/
theorem download_batch_failure_modes_witness :
    (download_spotify_tracks (fun q => if q = "A s3 audio" then none else some "f.mp3")
        "t"
        [⟨some { artists := ["A"], name := "s1", album := "b", duration_ms := 1000,
                 track_number := 1, id := "i1" }⟩,
         ⟨some { artists := ["A"], name := "s2", album := "b", duration_ms := 1000,
                 track_number := 2, id := "i2" }⟩,
         ⟨some { artists := ["A"], name := "s3", album := "b", duration_ms := 1000,
                 track_number := 3, id := "i3" }⟩,
         ⟨some { artists := ["A"], name := "s4", album := "b", duration_ms := 1000,
                 track_number := 4, id := "i4" }⟩,
         ⟨some { artists := ["A"], name := "s5", album := "b", duration_ms := 1000,
                 track_number := 5, id := "i5" }⟩]).1.completed_tracks = 4 ∧
    (download_youtube_tracks ytSampleFetchFail3
        ["s1.mp3", "s2.mp3", "s4.mp3", "s5.mp3"] "t"
        ytSampleEntries).1.completed_tracks = 4 ∧
    (download_youtube_tracks ytSampleFetchFail3
        ["s1.mp3", "s2.mp3", "s4.mp3", "s5.mp3"] "t"
        ytSampleEntries).1.errors.length = 1 ∧
    (download_youtube_tracks ytSampleFetch
        ["s1.mp3", "s2.mp3", "s4.mp3", "s5.mp3"] "t"
        ytSampleEntries).1.completed_tracks = 4 ∧
    (download_youtube_tracks ytSampleFetch
        ["s1.mp3", "s2.mp3", "s4.mp3", "s5.mp3"] "t"
        ytSampleEntries).1.errors.length = 0 := by
  obtain ⟨⟨hS, -, -, -⟩, ⟨hA1, -, hA3, -⟩, ⟨hB1, -, hB3, -⟩⟩ :=
    download_batch_failure_modes
      (fun q => if q = "A s3 audio" then none else some "f.mp3") "t"
      { artists := ["A"], name := "s1", album := "b", duration_ms := 1000,
        track_number := 1, id := "i1" }
      { artists := ["A"], name := "s2", album := "b", duration_ms := 1000,
        track_number := 2, id := "i2" }
      { artists := ["A"], name := "s3", album := "b", duration_ms := 1000,
        track_number := 3, id := "i3" }
      { artists := ["A"], name := "s4", album := "b", duration_ms := 1000,
        track_number := 4, id := "i4" }
      { artists := ["A"], name := "s5", album := "b", duration_ms := 1000,
        track_number := 5, id := "i5" }
      "f.mp3" "f.mp3" "f.mp3" "f.mp3"
      (by decide) (by decide) (by decide) (by decide) (by decide)
      ytSampleFetchFail3 ytSampleFetch ["s1.mp3", "s2.mp3", "s4.mp3", "s5.mp3"]
      { id := "v1", title := some "t1" } { id := "v2", title := some "t2" }
      { id := "v3", title := some "t3" } { id := "v4", title := some "t4" }
      { id := "v5", title := some "t5" }
      {} {} {} {} {} "s1.mp3" "s2.mp3" "s3.mp3" "s4.mp3" "s5.mp3"
      (by decide) (by decide) (by decide) (by decide) (by decide)
      (by decide) (by decide) (by decide) (by decide) (by decide)
      (by decide) (by decide) (by decide) (by decide) (by decide)
  exact ⟨hS, hA1, hA3, hB1, hB3⟩

/-! ### C2: name-collision handling in playlist creation
(src/utils/file_utils.py, src/core/playlist_manager.py)

Directory names live in a list `fs` of existing entries of the playlists
root.  Python's `f"{name}_{counter}"` renders the counter in decimal;
`natDigits`/`natToString` embed that rendering and are proved injective so
that the candidate names the collision loop tries are pairwise distinct. -/

/-- Decimal digits of a natural number, most significant first. -/
def natDigits (n : Nat) : List Char :=
  if n < 10 then [Nat.digitChar n]
  else natDigits (n / 10) ++ [Nat.digitChar (n % 10)]
termination_by n
decreasing_by simp_wf; omega

/-- Numeric value of a decimal digit character. -/
def digitVal (c : Char) : Nat := c.toNat - 48

/-- Value of a digit string, most significant first. -/
def digitsVal (l : List Char) : Nat := l.foldl (fun a c => 10 * a + digitVal c) 0

/-- Python's `str` of a nonnegative integer. -/
def natToString (n : Nat) : String := String.mk (natDigits n)

theorem digitVal_digitChar (d : Nat) (h : d < 10) : digitVal (Nat.digitChar d) = d := by
  interval_cases d <;> decide

theorem digitsVal_append_singleton (l : List Char) (c : Char) :
    digitsVal (l ++ [c]) = 10 * digitsVal l + digitVal c := by
  simp [digitsVal, List.foldl_append]

theorem digitsVal_natDigits (n : Nat) : digitsVal (natDigits n) = n := by
  induction n using Nat.strong_induction_on with
  | _ n ih =>
      rw [natDigits]
      split_ifs with h
      · simp [digitsVal, digitVal_digitChar n h]
      · rw [digitsVal_append_singleton, ih (n / 10) (by omega),
          digitVal_digitChar _ (by omega)]
        omega

theorem natDigits_ne_nil (n : Nat) : natDigits n ≠ [] := by
  rw [natDigits]
  split_ifs <;> simp

theorem natDigits_injective : Function.Injective natDigits := by
  intro m n h
  rw [← digitsVal_natDigits m, ← digitsVal_natDigits n, h]

/-- The sequence of directory names `create_playlist_folder` tries:
the sanitized name itself, then `name_1`, `name_2`, … -/
def candidate (san : String) : Nat → String
  | 0 => san
  | k + 1 => san ++ "_" ++ natToString (k + 1)

theorem candidate_injective (san : String) : Function.Injective (candidate san) := by
  have hpos : ∀ k : Nat, 0 < (natDigits k).length :=
    fun k => List.length_pos.mpr (natDigits_ne_nil k)
  have hlen_nat : ∀ k : Nat, (natToString k).length = (natDigits k).length := fun _ => rfl
  have hlen_u : ("_" : String).length = 1 := rfl
  intro a b hab
  match a, b with
  | 0, 0 => rfl
  | 0, k + 1 =>
      exfalso
      have hlen := congrArg String.length hab
      simp only [candidate, String.length_append] at hlen
      have h1 := hpos (k + 1)
      have h2 := hlen_nat (k + 1)
      omega
  | j + 1, 0 =>
      exfalso
      have hlen := congrArg String.length hab
      simp only [candidate, String.length_append] at hlen
      have h1 := hpos (j + 1)
      have h2 := hlen_nat (j + 1)
      omega
  | j + 1, k + 1 =>
      have hd := congrArg String.data hab
      simp only [candidate, String.data_append, List.append_assoc] at hd
      have h1 := List.append_cancel_left (List.append_cancel_left hd)
      have h2 : natDigits (j + 1) = natDigits (k + 1) := h1
      exact natDigits_injective h2

/-- Among the first `fs.length + 1` candidates, at least one name is not yet
taken: the candidates are pairwise distinct and `fs` is too short to contain
them all. -/
theorem exists_free_candidate (fs : List String) (san : String) :
    ∃ k, k ≤ fs.length ∧ candidate san k ∉ fs := by
  by_contra h
  push_neg at h
  have hsub : ((List.range (fs.length + 1)).map (candidate san)) ⊆ fs := by
    intro x hx
    simp only [List.mem_map, List.mem_range] at hx
    obtain ⟨k, hk, rfl⟩ := hx
    exact h k (by omega)
  have hnodup : ((List.range (fs.length + 1)).map (candidate san)).Nodup :=
    (List.nodup_range _).map (candidate_injective san)
  have hle := (List.subperm_of_subset hnodup hsub).length_le
  simp only [List.length_map, List.length_range] at hle
  omega

/-- The `while playlist_dir.exists()` loop of
`FileUtils.create_playlist_folder` (file_utils.py lines 31-37), with the
candidate index as counter.  The source loop is unbounded; `fuel` only bounds
the recursion, and `exists_free_candidate` shows `fs.length + 1` steps always
reach a free name, so the fueled function equals the loop. -/
def create_folder_loop (fs : List String) (san : String) : Nat → Nat → String
  | 0, counter => candidate san counter
  | fuel + 1, counter =>
      if candidate san counter ∈ fs then create_folder_loop fs san fuel (counter + 1)
      else candidate san counter

/-- If some candidate in reach of the remaining fuel is free, the loop
returns the first free candidate: a name of candidate shape, at an index at
least the current one, not present in `fs`. -/
theorem create_folder_loop_spec (fs : List String) (san : String) :
    ∀ fuel counter, (∃ j, counter ≤ j ∧ j < counter + fuel ∧ candidate san j ∉ fs) →
      ∃ j, counter ≤ j ∧ create_folder_loop fs san fuel counter = candidate san j ∧
        candidate san j ∉ fs := by
  intro fuel
  induction fuel with
  | zero =>
      intro counter h
      obtain ⟨j, h1, h2, -⟩ := h
      omega
  | succ fuel ih =>
      intro counter h
      rw [create_folder_loop]
      by_cases hc : candidate san counter ∈ fs
      · rw [if_pos hc]
        obtain ⟨j, h1, h2, h3⟩ := h
        have hne : j ≠ counter := by
          intro he
          rw [he] at h3
          exact h3 hc
        obtain ⟨j', h1', h2', h3'⟩ := ih (counter + 1) ⟨j, by omega, by omega, h3⟩
        exact ⟨j', by omega, h2', h3'⟩
      · rw [if_neg hc]
        exact ⟨counter, le_refl _, rfl, hc⟩

/-- `FileUtils.sanitize_filename` (file_utils.py lines 41-56). -/
def FileUtils.sanitize_filename (filename : String) : String :=
  let invalid : List Char := "<>:\"/\\|?*".data
  let replaced := filename.data.map (fun c => if c ∈ invalid then '_' else c)
  let stripped := ((replaced.dropWhile (fun c => c == '.' || c == ' ')).reverse.dropWhile
      (fun c => c == '.' || c == ' ')).reverse
  let limited := stripped.take 100
  if limited.isEmpty then "Untitled" else String.mk limited

/-- `FileUtils.create_playlist_folder` (file_utils.py lines 25-39): try the
sanitized name, then numeric suffixes, until a free directory name is found;
the directory is then created (the caller appends it to `fs`). -/
def FileUtils.create_playlist_folder (fs : List String) (name : String) : String :=
  create_folder_loop fs (FileUtils.sanitize_filename name) (fs.length + 1) 0

/-- The folder chosen for a new playlist is never an existing entry, and is
always one of the candidates. -/
theorem create_playlist_folder_fresh (fs : List String) (name : String) :
    ∃ j, FileUtils.create_playlist_folder fs name =
        candidate (FileUtils.sanitize_filename name) j ∧
      FileUtils.create_playlist_folder fs name ∉ fs := by
  obtain ⟨k, hk, hfree⟩ := exists_free_candidate fs (FileUtils.sanitize_filename name)
  obtain ⟨j, -, hform, hfree'⟩ := create_folder_loop_spec fs
    (FileUtils.sanitize_filename name) (fs.length + 1) 0 ⟨k, by omega, by omega, hfree⟩
  refine ⟨j, hform, ?_⟩
  rw [FileUtils.create_playlist_folder, hform]
  exact hfree'

/-- The `PlaylistManager` state: the names present in the playlists root
directory and the in-memory name-keyed index. -/
structure PlaylistManager where
  fs : List String
  playlists : String → Option Playlist

/-- `PlaylistManager.create_playlist` (playlist_manager.py lines 308-326):
allocate a directory, build a fresh `Playlist` object on it (the new
directory holds no manifest, so the constructor's load attempt fails and
leaves the defaults), override name and description, save, and index the
object under its display name.  Saving the manifest is modelled as
succeeding, so the cleanup branch returning `None` is not taken. -/
def PlaylistManager.create_playlist (st : PlaylistManager) (name description now : String) :
    PlaylistManager × Option Playlist :=
  let playlist_dir := FileUtils.create_playlist_folder st.fs name
  let playlist0 := Playlist.init playlist_dir now
  let playlist1 := (({ playlist0 with name := name, description := description } :
      Playlist).save now).1
  ({ fs := st.fs ++ [playlist_dir]
     playlists := fun n => if n = playlist1.name then some playlist1 else st.playlists n },
   some playlist1)

/-- C2: two consecutive `create_playlist` calls with the same name both
succeed and yield playlists on two distinct directories; the second
directory is fresh, and carries a numeric suffix `_k` (`k ≥ 1`) appended to
the sanitized name. -/
theorem create_playlist_twice_distinct (st : PlaylistManager) (name description : String)
    (now now' : String) :
    ∃ p1 p2,
      (st.create_playlist name description now).2 = some p1 ∧
      ((st.create_playlist name description now).1.create_playlist
          name description now').2 = some p2 ∧
      p1.path ≠ p2.path ∧
      p2.path ∉ (st.create_playlist name description now).1.fs ∧
      ∃ k, 1 ≤ k ∧ p2.path = candidate (FileUtils.sanitize_filename name) k := by
  obtain ⟨j1, hform1, hfree1⟩ := create_playlist_folder_fresh st.fs name
  obtain ⟨j2, hform2, hfree2⟩ := create_playlist_folder_fresh
    (st.fs ++ [FileUtils.create_playlist_folder st.fs name]) name
  have hmem1 : FileUtils.create_playlist_folder st.fs name ∈
      st.fs ++ [FileUtils.create_playlist_folder st.fs name] := by simp
  refine ⟨_, _, rfl, rfl, ?_, ?_, ?_⟩
  · show FileUtils.create_playlist_folder st.fs name ≠
      FileUtils.create_playlist_folder
        (st.fs ++ [FileUtils.create_playlist_folder st.fs name]) name
    intro he
    rw [← he] at hfree2
    exact hfree2 hmem1
  · show FileUtils.create_playlist_folder
        (st.fs ++ [FileUtils.create_playlist_folder st.fs name]) name ∉
      st.fs ++ [FileUtils.create_playlist_folder st.fs name]
    exact hfree2
  · refine ⟨j2, ?_, hform2⟩
    rcases Nat.eq_zero_or_pos j2 with hz | hpos
    · exfalso
      have hsan_mem : FileUtils.sanitize_filename name ∈
          st.fs ++ [FileUtils.create_playlist_folder st.fs name] := by
        by_cases hsan : FileUtils.sanitize_filename name ∈ st.fs
        · exact List.mem_append_left _ hsan
        · have hfirst : FileUtils.create_playlist_folder st.fs name =
              FileUtils.sanitize_filename name := by
            rw [FileUtils.create_playlist_folder, create_folder_loop,
              if_neg (show candidate (FileUtils.sanitize_filename name) 0 ∉ st.fs
                from hsan)]
            rfl
          rw [← hfirst]
          exact hmem1
      rw [hz] at hform2
      rw [hform2] at hfree2
      exact hfree2 hsan_mem
    · exact hpos

/-- Closed instance of `play_previous_policy`: at position 1s with track 0 of
a three-track playlist selected, `previous()` wraps the selection to the last
track and plays it. -/
theorem play_previous_policy_witness :
    (MainWindow.play_previous
        { current_playlist := some samplePlaylist, current_track_index := 0 }
        1 ["pl/c.mp3"]).1.current_track_index = 2 ∧
    (MainWindow.play_previous
        { current_playlist := some samplePlaylist, current_track_index := 0 }
        1 ["pl/c.mp3"]).2 =
      [PlayerCommand.play "pl/c.mp3"] := by
  obtain ⟨-, h2⟩ := play_previous_policy
    { current_playlist := some samplePlaylist, current_track_index := 0 }
    samplePlaylist 1 ["pl/c.mp3"] rfl (by decide) (by constructor <;> decide)
  obtain ⟨-, hb, hc⟩ := h2 (by norm_num)
  constructor
  · rw [hb rfl]
    decide
  · rw [hc (by decide)]
    decide
